import Mathlib

/-!
Shallow embedding of `get_python_api.py`, the ZED SDK Python API download
helper script. Effects (filesystem, network, subprocesses) are modelled by
explicit outcome parameters; each Lean definition mirrors one Python
function or one top-level block of the script, line by line.
-/

namespace GetPythonApi

/-- Outcome of `subprocess.check_call` on a given argument list:
`ok` — the process exited with status 0 (check_call returns 0);
`calledProcessError` — the process exited nonzero (check_call raises);
`invocationError` — the invocation itself failed (e.g. OSError). -/
inductive SubprocResult where
  | ok
  | calledProcessError (returncode : Nat)
  | invocationError
deriving DecidableEq, Repr

/-- The argument list `call_list` built by `pip_install` (lines 33-42):
`[sys.executable, "-m", "pip", "install"]` plus the optional flags in
source order, then the package. -/
def pip_install_call_list (pythonExe package : String)
    (force_install ignore_install upgrade break_system_packages : Bool) : List String :=
  [pythonExe, "-m", "pip", "install"]
    ++ (if ignore_install then ["--ignore-installed"] else [])
    ++ (if force_install then ["--force-reinstall"] else [])
    ++ (if upgrade then ["--upgrade"] else [])
    ++ (if break_system_packages then ["--break-system-packages"] else [])
    ++ [package]

/-- `pip_install` (lines 27-46). `exec` is the behaviour of
`subprocess.check_call` on an argument list. On success `check_call`
returns the exit status 0, so `err = 0`; every exception (nonzero exit or
invocation failure) is caught by `except Exception` and sets `err = 1`.
The `PIP_BREAK_SYSTEM_PACKAGES` environment-variable assignment is a side
effect that does not influence the return value and is not modelled. -/
def pip_install (pythonExe package : String)
    (force_install ignore_install upgrade break_system_packages : Bool)
    (exec : List String → SubprocResult) : Nat :=
  match exec (pip_install_call_list pythonExe package
      force_install ignore_install upgrade break_system_packages) with
  | .ok => 0
  | .calledProcessError _ => 1
  | .invocationError => 1

/-- Outcome of `os.stat(file_path)`: the size in bytes on success,
`fileNotFound` for `FileNotFoundError`, `otherError` for any other
exception (e.g. `PermissionError` on an unsearchable parent directory, or
`ValueError` for a path with an embedded NUL byte). -/
inductive StatOutcome where
  | ok (stSize : Nat)
  | fileNotFound
  | otherError
deriving DecidableEq, Repr

/-- The four ZIP magic bytes `b'PK\x03\x04'`. -/
def zipMagic : List Nat := [0x50, 0x4B, 0x03, 0x04]

/-- `check_valid_file` (lines 49-76). `stat` is the outcome of
`os.stat(file_path)`; `openRead4` is `some bytes` when
`open(file_path, 'rb')` followed by `f.read(4)` yields `bytes` (at most 4
of them), and `none` when that open/read raises (every such exception is
caught by `except Exception`). The first `try` catches only
`FileNotFoundError`, so any other stat exception propagates (`Except.error`).
The size test `os.stat(...).st_size / 1000. > 150` is `stSize > 150000`:
for integer byte counts the float division is monotone and exact at the
boundary 150000 / 1000.0 = 150.0. -/
def check_valid_file (stat : StatOutcome) (openRead4 : Option (List Nat)) :
    Except Unit Bool :=
  match stat with
  | .otherError => .error ()
  | _ =>
    let sizeOk : Bool :=
      match stat with
      | .ok stSize => decide (150000 < stSize)
      | _ => false
    let is_zip : Bool :=
      match openRead4 with
      | some header => decide (header = zipMagic)
      | none => false
    .ok (sizeOk && is_zip)

/-- The regex search of `p.search(data)` for pattern `marker ++ "(.*)"`
where `marker` is a literal ending in a space: scans left to right for the
first occurrence of the literal `marker`; `(.*)` then greedily matches the
rest of that line (`.` does not match a newline). Returns `group(1)`, or
`none` when there is no match (`p.search` returns `None`). -/
def reSearchGroup1 (marker : List Char) : List Char → Option (List Char)
  | [] => none
  | c :: rest =>
    if marker.isPrefixOf (c :: rest) then
      some (((c :: rest).drop marker.length).takeWhile (fun ch => ch ≠ '\n'))
    else reSearchGroup1 marker rest

/-- Exceptions relevant to `check_zed_sdk_version`: `attributeError` is the
`AttributeError` raised by `None.group(1)` when a pattern search fails;
`fileNotFound` is the `FileNotFoundError` from `open` on a missing file. -/
inductive PyErr where
  | attributeError
  | fileNotFound
deriving DecidableEq, Repr

/-- `check_zed_sdk_version_private` (lines 122-133). `content` is the text
of `file_path` (`none` when `open` raises `FileNotFoundError`). Searches
`"ZED_SDK_MAJOR_VERSION (.*)"` then `"ZED_SDK_MINOR_VERSION (.*)"`; a
failed search makes `.group(1)` raise `AttributeError`. On success the two
captured groups (the globals `ZED_SDK_MAJOR`, `ZED_SDK_MINOR`) are
returned as a pair. -/
def check_zed_sdk_version_private (content : Option String) :
    Except PyErr (String × String) :=
  match content with
  | none => .error .fileNotFound
  | some data =>
    match reSearchGroup1 "ZED_SDK_MAJOR_VERSION ".data data.data with
    | none => .error .attributeError
    | some major =>
      match reSearchGroup1 "ZED_SDK_MINOR_VERSION ".data data.data with
      | none => .error .attributeError
      | some minor => .ok (String.mk major, String.mk minor)

/-- `check_zed_sdk_version` (lines 136-142). `fs` maps a path to its text
content (`none` = missing file). Tries `<path>/sl/Camera.hpp`; only an
`AttributeError` triggers the retry on `<path>/sl_zed/defines.hpp`; any
error of the second attempt, and a `FileNotFoundError` of the first,
propagate. -/
def check_zed_sdk_version (fs : String → Option String) (file_path : String) :
    Except PyErr (String × String) :=
  match check_zed_sdk_version_private (fs (file_path ++ "/sl/Camera.hpp")) with
  | .ok v => .ok v
  | .error .attributeError =>
    check_zed_sdk_version_private (fs (file_path ++ "/sl_zed/defines.hpp"))
  | .error .fileNotFound => .error .fileNotFound

/-- Observable actions of the script, in program order. `fsWrite` records
that the script invoked `open(path, mode).write(content)` — the attempt is
recorded even when the write itself then fails. `outputData` is a `print`
of a Python list of strings (its repr is not modelled). `crash` marks an
uncaught exception terminating the script. -/
inductive Event where
  | output (s : String)
  | outputData (lines : List String)
  | netGet (url : String)
  | fsWrite (path : String) (content : List Nat)
  | fsRemove (path : String)
  | subproc (args : List String)
  | fsCopy (src dst : String)
  | exitCode (code : Nat)
  | crash
deriving DecidableEq, Repr

/-- The bytes of the string `'test'` written by the probe in
`can_write_to_dir`. -/
def testBytes : List Nat := [116, 101, 115, 116]

/-- `can_write_to_dir` (lines 144-155) with its probe-file events.
`os.path.join` is modelled with a `/` separator. Returns the Python result
together with the trace: the probe write is attempted whenever the
exists/isdir/access pre-check passes, and the remove only after a
successful write. Here `ex`, `isdir`, `acc` are `os.path.exists(dirname)`,
`os.path.isdir(dirname)`, `os.access(dirname, os.W_OK)`; `probeWrite` is
whether `open(testfile, 'w')` + `f.write('test')` succeeds and
`probeRemove` whether `os.remove(testfile)` succeeds; any exception in the
probe yields `False`. -/
def can_write_to_dir_run (ex isdir acc probeWrite probeRemove : Bool)
    (dirname : String) : Bool × List Event :=
  if !(ex && isdir && acc) then (false, [])
  else
    let testfile := dirname ++ "/temp_test_file.tmp"
    if probeWrite then
      if probeRemove then (true, [.fsWrite testfile testBytes, .fsRemove testfile])
      else (false, [.fsWrite testfile testBytes])
    else (false, [.fsWrite testfile testBytes])

/-- An HTTP response: `requests.get` returns one for every status code,
including 4xx/5xx (it does not raise on HTTP error statuses unless
`raise_for_status` is called, which the script never does). -/
structure Response where
  status : Nat
  content : List Nat
deriving DecidableEq, Repr

/-- Outcome of one `requests.get(whl_file_URL, allow_redirects=True)`:
a response (any status), or an exception classified by which `except`
clause of lines 223-228 it matches — `excPermissionError`
(`PermissionError`), `excHTTPError` (`requests.exceptions.HTTPError`),
`excURLError` (a transport-level SSL error matching the
`requests.exceptions.URLError` clause), or `excOther` (anything else,
matching no clause). -/
inductive GetResult where
  | resp (r : Response)
  | excPermissionError
  | excHTTPError
  | excURLError
  | excOther
deriving DecidableEq, Repr

/-- Outcome of `open(path, 'wb').write(content)`: success,
`PermissionError`, or some other exception. -/
inductive WriteResult where
  | ok
  | permissionError
  | otherError
deriving DecidableEq, Repr

/-- How the top-level download `try` block (lines 220-237) ends: fall
through to the `check_valid_file` test (`goOn`), `sys.exit(1)` from the
`PermissionError` handler (`exited1`), or an uncaught exception
(`crashed`). -/
inductive BlockEnd where
  | goOn
  | exited1
  | crashed
deriving DecidableEq, Repr

/-- Result of the download block: its event trace, the arguments
`(package, force_install, ignore_install, upgrade, break_system_packages)`
of the `pip_install` call made for `certifi` (if any), the number of
`requests.get` attempts, and how the block ended. -/
structure DlResult where
  events : List Event
  certifiCall : Option (String × Bool × Bool × Bool × Bool)
  gets : Nat
  ending : BlockEnd
deriving DecidableEq, Repr

/-- The retry attempt (lines 233-237): `requests.get` then the write,
inside `try ... except Exception`, so every failure is caught, printed and
execution continues. The printed message interpolates the exception text,
which is not modelled. -/
def retryAttempt (whlPath url : String) (g : GetResult) (w : WriteResult) :
    List Event :=
  .netGet url ::
    match g with
    | .resp r =>
      .fsWrite whlPath r.content ::
        (match w with
         | .ok => []
         | _ => [.output "Error downloading whl file"])
    | _ => [.output "Error downloading whl file"]

/-- The top-level download block (lines 220-237). `g1`/`w1` are the
outcomes of the first `requests.get` and write, `g2`/`w2` of the retry (if
reached), `exec` the subprocess behaviour seen by `pip_install`, and `bsp`
is `args.force` (passed as `break_system_packages`). On the
`URLError` clause the script reinstalls `certifi` via
`pip_install("certifi", force_install=True, upgrade=True,
break_system_packages=args.force)` and retries once iff that returned 0. -/
def downloadBlock (pythonExe whlPath url : String) (bsp : Bool)
    (g1 g2 : GetResult) (w1 w2 : WriteResult)
    (exec : List String → SubprocResult) : DlResult :=
  match g1 with
  | .resp r =>
    match w1 with
    | .ok => ⟨[.netGet url, .fsWrite whlPath r.content], none, 1, .goOn⟩
    | .permissionError =>
      ⟨[.netGet url, .fsWrite whlPath r.content,
        .output "Permission denied: Unable to write the packages. Run this script as admin or copy it in a different path and retry.",
        .exitCode 1], none, 1, .exited1⟩
    | .otherError =>
      ⟨[.netGet url, .fsWrite whlPath r.content, .crash], none, 1, .crashed⟩
  | .excPermissionError =>
    ⟨[.netGet url,
      .output "Permission denied: Unable to write the packages. Run this script as admin or copy it in a different path and retry.",
      .exitCode 1], none, 1, .exited1⟩
  | .excHTTPError =>
    ⟨[.netGet url, .output "Error downloading whl file"], none, 1, .goOn⟩
  | .excURLError =>
    let ev0 : List Event :=
      [.netGet url,
       .output "Invalid SSL certificate, trying to fix the issue by reinstalling 'certifi' package",
       .subproc (pip_install_call_list pythonExe "certifi" true false true bsp)]
    if pip_install pythonExe "certifi" true false true bsp exec = 0 then
      ⟨ev0 ++ retryAttempt whlPath url g2 w2,
        some ("certifi", true, false, true, bsp), 2, .goOn⟩
    else
      ⟨ev0, some ("certifi", true, false, true, bsp), 1, .goOn⟩
  | .excOther => ⟨[.netGet url, .crash], none, 1, .crashed⟩

/-- The `for line in lines` loop of `get_pyzed_directory` (lines 104-112):
on a `Location:` line naming an existing directory, print and return
`directory + "/pyzed"`; on a `Location:` line naming a non-directory,
print an error and keep scanning; otherwise keep scanning. Returns `none`
when the loop exhausts the lines (the Python function then falls through
and returns `None`). -/
def pyzedLoc (isDir : String → Bool) : List String → Option String × List Event
  | [] => (none, [])
  | line :: rest =>
    if line.startsWith "Location:" then
      let directory := (line.drop "Location:".length).trim
      if isDir directory then
        (some (directory ++ "/pyzed"), [.output ("Pyzed directory is " ++ directory)])
      else
        ((pyzedLoc isDir rest).1,
         .output ("ERROR : '" ++ directory ++ "' is not a directory")
           :: (pyzedLoc isDir rest).2)
    else pyzedLoc isDir rest

/-- `get_pyzed_directory` (lines 100-119). `showResult` is the outcome of
`subprocess.check_output([sys.executable, "-m", "pip", "show", "pyzed"])`
split into lines, `none` when it raises. On an exception the handler
prints and returns the empty string (`some ""`); when the subprocess
succeeds but no `Location:` line names an existing directory, the function
prints two diagnostics and falls off the end, returning Python `None`
(`none`). -/
def get_pyzed_directory (pythonExe : String) (showResult : Option (List String))
    (isDir : String → Bool) : Option String × List Event :=
  let showCall : Event := .subproc [pythonExe, "-m", "pip", "show", "pyzed"]
  match showResult with
  | none =>
    (some "", [showCall, .output "ERROR : Unable to find pyzed installation folder."])
  | some lines =>
    match (pyzedLoc isDir lines).1 with
    | some d => (some d, showCall :: (pyzedLoc isDir lines).2)
    | none =>
      (none, showCall :: (pyzedLoc isDir lines).2
        ++ [.output "ERROR : Unable to find pyzed installation folder",
            .outputData lines])

/-- `base_URL` (line 25). -/
def base_URL : String := "https://download.stereolabs.com/zedsdk/"

/-- Python `int(s)` for the decimal numerals produced by
`platform.python_version().split(".")`; a non-numeral (on which `int`
would raise `ValueError`) is mapped to 0, outside the inputs the script
can see. -/
def pyInt (s : String) : Nat := s.toNat?.getD 0

/-- Python substring test `needle in hay` (for a nonempty needle). -/
def occursIn (needle hay : String) : Bool := (hay.splitOn needle).length > 1

/-- The two OS families the script supports (`sys.platform == "win32"` and
`"linux" in sys.platform`). -/
inductive OSFamily where
  | win32
  | linux
deriving DecidableEq, Repr

/-- `whl_python_version` (lines 205-207): `-cp<maj><min>-cp<maj><min>`,
with an `m` suffix when `int(PYTHON_MINOR) < 8`. -/
def whl_python_version (pyMajor pyMinor : String) : String :=
  let v := "-cp" ++ pyMajor ++ pyMinor ++ "-cp" ++ pyMajor ++ pyMinor
  if pyInt pyMinor < 8 then v ++ "m" else v

/-- `OS_VERSION` as assigned on lines 183 and 187-190: `"win_" +
machine.lower()` on Windows; on Linux `linux_aarch64` when the machine
string contains `aarch64`, else `linux_x86_64`. -/
def os_version_of (os : OSFamily) (machine : String) : String :=
  match os with
  | .win32 => "win" ++ "_" ++ machine.toLower
  | .linux => if occursIn "aarch64" machine then "linux_aarch64" else "linux_x86_64"

/-- `whl_platform_str` as assigned on lines 184 and 197. -/
def whl_platform_of : OSFamily → String
  | .win32 => "win"
  | .linux => "linux"

/-- `whl_file` (lines 213-214, before the `os.path.join`):
`pyzed-<sdkMajor>.<sdkMinor><whl_python_version>-<platform>_<machine-lowercased>.whl`. -/
def whl_file_name (sdkMajor sdkMinor pyMajor pyMinor platformStr machine : String) :
    String :=
  "pyzed-" ++ sdkMajor ++ "." ++ sdkMinor ++ whl_python_version pyMajor pyMinor
    ++ "-" ++ platformStr ++ "_" ++ machine.toLower ++ ".whl"

/-- `whl_file_URL` (line 216):
`base_URL + <sdkMajor>.<sdkMinor>/whl/<OS_VERSION>/<whl_file>`. -/
def whl_file_url (sdkMajor sdkMinor os_version fname : String) : String :=
  base_URL ++ sdkMajor ++ "." ++ sdkMinor ++ "/whl/" ++ os_version ++ "/" ++ fname

/-- The (filename, URL) pair constructed by lines 202-216 as a function of
the OS family, the machine string (`platform.machine()`), the SDK
major/minor and the interpreter major/minor. -/
def artifact (os : OSFamily) (machine : String) (sdk : String × String)
    (py : String × String) : String × String :=
  let fname := whl_file_name sdk.1 sdk.2 py.1 py.2 (whl_platform_of os) machine
  (fname, whl_file_url sdk.1 sdk.2 (os_version_of os machine) fname)

/-- The wheel filename built by `install_win_dep` (lines 80-90). -/
def install_win_dep_whl (name : String) (py_vers : Nat) : String :=
  let package_vers :=
    if py_vers < 310 then "3.1.5"
    else if py_vers ≥ 310 ∧ py_vers < 312 then "3.1.6"
    else "3.1.9"
  let w := name ++ "-" ++ package_vers ++ "-cp" ++ toString py_vers
    ++ "-cp" ++ toString py_vers
  let w := if py_vers ≤ 37 then w ++ "m" else w
  w ++ "-win_amd64.whl"

/-- The environment a run of the script observes: platform values, parsed
CLI arguments, filesystem and subprocess behaviour, and the outcomes of
the network and write operations. `g1`/`w1` and `g2`/`w2` are the first
download attempt and the retry; `statOf`/`read4Of` describe the
destination file as `check_valid_file` sees it after the download;
`depGet`/`depWrite` serve the `install_win_dep` downloads; `pipShow` is
the `pip show pyzed` output (`none` = the call raised); `copyOk` is
whether `shutil.copy` of a given source file succeeds. -/
structure ScriptEnv where
  archBits : String
  machine : String
  sysPlatform : String
  pythonExe : String
  argsPath : Option String
  argsForce : Bool
  cwd : String
  home : String
  zedRootDir : Option String
  pyMajor : String
  pyMinor : String
  pathExists : String → Bool
  pathIsDir : String → Bool
  accessW : String → Bool
  probeWrite : String → Bool
  probeRemove : String → Bool
  readText : String → Option String
  g1 : GetResult
  g2 : GetResult
  w1 : WriteResult
  w2 : WriteResult
  exec : List String → SubprocResult
  statOf : String → StatOutcome
  read4Of : String → Option (List Nat)
  depGet : String → GetResult
  depWrite : String → WriteResult
  pipShow : Option (List String)
  isFile : String → Bool
  copyOk : String → Bool

/-- `install_win_dep` (lines 79-97): build the dependency wheel name,
download it (no `try`: any exception is uncaught), write it (uncaught on
failure) and `pip_install` it. Returns the events and whether the script
crashed inside. -/
def install_win_dep_run (env : ScriptEnv) (dirname name : String) (py_vers : Nat) :
    List Event × Bool :=
  let whlName := install_win_dep_whl name py_vers
  let url := "https://download.stereolabs.com/py/" ++ whlName
  let whlPath := dirname ++ "/" ++ whlName
  let ev0 : List Event := [.output ("-> Downloading " ++ whlName), .netGet url]
  match env.depGet url with
  | .resp r =>
    match env.depWrite whlPath with
    | .ok =>
      (ev0 ++ [.fsWrite whlPath r.content,
        .subproc (pip_install_call_list env.pythonExe whlPath false false false env.argsForce)],
       false)
    | _ => (ev0 ++ [.fsWrite whlPath r.content, .crash], true)
  | _ => (ev0 ++ [.crash], true)

/-- The `for file in files` loop of lines 275-279: for each DLL present in
the SDK `bin` directory, `shutil.copy` it into the pyzed directory (when
`get_pyzed_directory` returned Python `None`, the destination expression
`pyzed_dir + file` raises `TypeError` — a crash); a missing source file
only prints an error. Returns the events and whether the script crashed. -/
def dllCopyLoop (env : ScriptEnv) (pyzedDir : Option String) (source_dir : String) :
    List String → List Event × Bool
  | [] => ([], false)
  | file :: rest =>
    if env.isFile (source_dir ++ file) then
      match pyzedDir with
      | none => ([.crash], true)
      | some d =>
        if env.copyOk (source_dir ++ file) then
          let (evs, c) := dllCopyLoop env pyzedDir source_dir rest
          (.fsCopy (source_dir ++ file) (d ++ file) :: evs, c)
        else ([.fsCopy (source_dir ++ file) (d ++ file), .crash], true)
    else
      let (evs, c) := dllCopyLoop env pyzedDir source_dir rest
      (.output ("ERROR : An error occurred, 'pip' failed to copy dll file "
          ++ source_dir ++ file ++ " (pyzed was NOT correctly setup)") :: evs, c)

/-- The Windows post-install block (lines 264-279): OpenGL dependency
wheels, pyzed directory discovery, DLL copies. Returns the events and
whether the script crashed. -/
def winPostInstall (env : ScriptEnv) (dirname zedPath : String) : List Event × Bool :=
  let py_vers := pyInt env.pyMajor * 10 ^ env.pyMinor.length + pyInt env.pyMinor
  let hd : Event := .output "Installing OpenGL dependencies required to run the samples"
  let (ev1, crashed1) := install_win_dep_run env dirname "PyOpenGL" py_vers
  if crashed1 then (hd :: ev1, true)
  else
    let (ev2, crashed2) := install_win_dep_run env dirname "PyOpenGL_accelerate" py_vers
    if crashed2 then (hd :: ev1 ++ ev2, true)
    else
      let (pyzedDir, ev3) := get_pyzed_directory env.pythonExe env.pipShow env.pathIsDir
      let source_dir := zedPath ++ "/bin"
      let (ev4, crashed4) := dllCopyLoop env pyzedDir source_dir ["/sl_ai64.dll", "/sl_zed64.dll"]
      (hd :: ev1 ++ ev2 ++ ev3 ++ ev4, crashed4)

/-- The install branch taken when `check_valid_file` approved the download
(lines 240-282): dependency installs (wheel+cython only on aarch64, then
numpy), the pyzed wheel install, then the Windows post-install or the
Linux hint, ending in `sys.exit(0)` unless an earlier step exited or
crashed. -/
def installPhase (env : ScriptEnv) (dirname zedPath whlPath : String) : List Event :=
  let hdr : List Event :=
    [.output ("-> Found ! Downloading python package into " ++ whlPath),
     .output "-> Installing necessary dependencies"]
  let aarch := occursIn "aarch64" env.machine
  let (err, evDeps) :=
    if aarch then
      (pip_install env.pythonExe "wheel" false false false env.argsForce env.exec
         + pip_install env.pythonExe "cython" false false false env.argsForce env.exec,
       [Event.subproc (pip_install_call_list env.pythonExe "wheel" false false false env.argsForce),
        Event.subproc (pip_install_call_list env.pythonExe "cython" false false false env.argsForce)])
    else (0, [])
  let errNumpy := pip_install env.pythonExe "numpy" false false false env.argsForce env.exec
  let evNumpy : List Event :=
    [.subproc (pip_install_call_list env.pythonExe "numpy" false false false env.argsForce)]
  if err ≠ 0 ∨ errNumpy ≠ 0 then
    hdr ++ evDeps ++ evNumpy
      ++ [.output "ERROR : An error occurred, 'pip' failed to setup python dependencies packages (pyzed was NOT correctly setup)",
          .exitCode 1]
  else
    let errPyzed := pip_install env.pythonExe whlPath true false false env.argsForce env.exec
    let evPyzed : List Event :=
      [.subproc (pip_install_call_list env.pythonExe whlPath true false false env.argsForce)]
    if errPyzed = 0 then
      let evOk := hdr ++ evDeps ++ evNumpy ++ evPyzed ++ [Event.output "Done"]
      if env.sysPlatform = "win32" then
        let (evW, crashed) := winPostInstall env dirname zedPath
        evOk ++ evW ++ (if crashed then [] else [.exitCode 0])
      else
        evOk ++ [.output ("  To install it later or on a different environment run : \n python -m pip install --ignore-installed " ++ whlPath),
                 .exitCode 0]
    else
      hdr ++ evDeps ++ evNumpy ++ evPyzed
        ++ [.output "ERROR : An error occurred, 'pip' failed to setup pyzed package (pyzed was NOT correctly setup)",
            .exitCode 1]

/-- Lines 240-286: validate the downloaded file and either run the install
phase or exit 1. A `check_valid_file` stat exception other than
file-not-found is uncaught. -/
def afterDownload (env : ScriptEnv) (dirname zedPath whlPath : String) : List Event :=
  match check_valid_file (env.statOf whlPath) (env.read4Of whlPath) with
  | .error _ => [.crash]
  | .ok true => installPhase env dirname zedPath whlPath
  | .ok false =>
    [.output "\nUnsupported platforms, no pyzed file available for this configuration\n It can be manually installed from source https://github.com/stereolabs/zed-python-api",
     .exitCode 1]

/-- Lines 202-237 (after the platform branch fixed `zedPath`, the SDK
version and the platform strings): build the wheel name and URL, print the
banner, run the download block, and continue into `afterDownload` when the
block fell through. -/
def afterPlatform (env : ScriptEnv) (dirname zedPath sdkMajor sdkMinor os_version platformStr : String) :
    List Event :=
  let disp := "Detected platform: \n\t " ++ os_version ++ "\n\t Python "
    ++ env.pyMajor ++ "." ++ env.pyMinor
    ++ "\n\t ZED SDK " ++ sdkMajor ++ "." ++ sdkMinor
  let fname := whl_file_name sdkMajor sdkMinor env.pyMajor env.pyMinor platformStr env.machine
  let url := whl_file_url sdkMajor sdkMinor os_version fname
  let whlPath := dirname ++ "/" ++ fname
  let dl := downloadBlock env.pythonExe whlPath url env.argsForce env.g1 env.g2 env.w1 env.w2 env.exec
  [.output disp, .output ("-> Checking if " ++ url ++ " exists and is available")]
    ++ dl.events
    ++ match dl.ending with
       | .goOn => afterDownload env dirname zedPath whlPath
       | _ => []

/-- The whole script, from the architecture check (line 162) to the end,
as an event trace. The `--path` argument falls back to the working
directory when absent or empty (`args.path or os.getcwd()`); the
destination falls back to the home directory when the write probe fails;
the platform branch fixes the SDK path and version; a version-read failure
is an uncaught exception. -/
def scriptRun (env : ScriptEnv) : List Event :=
  if env.archBits ≠ "64bit" then
    [.output ("ERROR : Python 64bit must be used, found " ++ env.archBits), .exitCode 1]
  else
    let dirname0 :=
      match env.argsPath with
      | some p => if p = "" then env.cwd else p
      | none => env.cwd
    let (canW, evProbe) := can_write_to_dir_run (env.pathExists dirname0)
      (env.pathIsDir dirname0) (env.accessW dirname0)
      (env.probeWrite dirname0) (env.probeRemove dirname0) dirname0
    let dirname := if canW then dirname0 else env.home
    let ev0 := evProbe ++ [Event.output ("-> Downloading to '" ++ dirname ++ "'")]
    if env.sysPlatform = "win32" then
      match env.zedRootDir with
      | none => ev0 ++ [.output "Error: you must install the ZED SDK.", .exitCode 1]
      | some zedPath =>
        match check_zed_sdk_version env.readText (zedPath ++ "/include") with
        | .error _ => ev0 ++ [.crash]
        | .ok (mj, mn) =>
          ev0 ++ afterPlatform env dirname zedPath mj mn
            (os_version_of .win32 env.machine) (whl_platform_of .win32)
    else if occursIn "linux" env.sysPlatform then
      let osv := os_version_of .linux env.machine
      if !env.pathIsDir "/usr/local/zed" then
        ev0 ++ [.output "Error: you must install the ZED SDK.", .exitCode 1]
      else
        match check_zed_sdk_version env.readText "/usr/local/zed/include" with
        | .error _ => ev0 ++ [.crash]
        | .ok (mj, mn) =>
          ev0 ++ afterPlatform env dirname "/usr/local/zed" mj mn osv (whl_platform_of .linux)
    else
      ev0 ++ [.output ("Unknown system.platform: " ++ env.sysPlatform
          ++ "  Installation failed, see setup.py."), .exitCode 1]

/-! ## Theorems -/

/-- C1: `check_valid_file` returns false for a nonexistent path (stat
raises `FileNotFoundError` and open fails), for a file smaller than 150 KB
regardless of its content, and for a file of at least 150 KB whose first
four bytes are not the ZIP signature `b'PK\x03\x04'`; it returns true only
when both the size condition and the signature condition hold. -/
theorem claim_C1_check_valid_file (stat : StatOutcome) (openRead4 : Option (List Nat)) :
    (stat = .fileNotFound → openRead4 = none →
      check_valid_file stat openRead4 = .ok false) ∧
    (∀ n, stat = .ok n → n < 150000 →
      check_valid_file stat openRead4 = .ok false) ∧
    (∀ n, stat = .ok n → 150000 ≤ n → openRead4 ≠ some zipMagic →
      check_valid_file stat openRead4 = .ok false) ∧
    (check_valid_file stat openRead4 = .ok true →
      ∃ n, stat = .ok n ∧ 150000 ≤ n ∧ openRead4 = some zipMagic) := by
  refine ⟨?_, ?_, ?_, ?_⟩
  · rintro rfl rfl
    simp [check_valid_file]
  · rintro n rfl hn
    simp [check_valid_file]
    omega
  · rintro n rfl _ hsig
    cases openRead4 with
    | none => simp [check_valid_file]
    | some h =>
      have : ¬(h = zipMagic) := fun hh => hsig (by simp [hh])
      simp [check_valid_file, this]
  · intro h
    cases stat with
    | ok n =>
      cases openRead4 with
      | none => simp [check_valid_file] at h
      | some hdr =>
        simp [check_valid_file] at h
        exact ⟨n, rfl, by omega, by simp [h.2]⟩
    | fileNotFound => simp [check_valid_file] at h
    | otherError => simp [check_valid_file] at h

/-- Witness for C1 at concrete inputs: a missing file, a 100-byte file
with the right magic, a 200000-byte file with a wrong header, and a
200000-byte file with the ZIP magic. -/
theorem claim_C1_witness :
    check_valid_file .fileNotFound none = .ok false ∧
    check_valid_file (.ok 100) (some zipMagic) = .ok false ∧
    check_valid_file (.ok 200000) (some [1, 2, 3, 4]) = .ok false ∧
    (∃ n, StatOutcome.ok 200000 = .ok n ∧ 150000 ≤ n ∧
      (some zipMagic : Option (List Nat)) = some zipMagic) :=
  ⟨(claim_C1_check_valid_file .fileNotFound none).1 rfl rfl,
   (claim_C1_check_valid_file (.ok 100) (some zipMagic)).2.1 100 rfl (by omega),
   (claim_C1_check_valid_file (.ok 200000) (some [1, 2, 3, 4])).2.2.1 200000 rfl
     (by omega) (by decide),
   (claim_C1_check_valid_file (.ok 200000) (some zipMagic)).2.2.2 rfl⟩

/-- C8: `pip_install` returns 0 exactly when the pip subprocess completes
successfully and 1 on any exception — both on a nonzero exit
(`CalledProcessError`) and on an invocation failure — returning no other
value and preserving no distinction between the two error kinds. -/
theorem claim_C8_pip_install (pythonExe package : String)
    (force_install ignore_install upgrade break_system_packages : Bool)
    (exec : List String → SubprocResult) :
    (exec (pip_install_call_list pythonExe package force_install ignore_install
        upgrade break_system_packages) = .ok →
      pip_install pythonExe package force_install ignore_install upgrade
        break_system_packages exec = 0) ∧
    (∀ rc, exec (pip_install_call_list pythonExe package force_install ignore_install
        upgrade break_system_packages) = .calledProcessError rc →
      pip_install pythonExe package force_install ignore_install upgrade
        break_system_packages exec = 1) ∧
    (exec (pip_install_call_list pythonExe package force_install ignore_install
        upgrade break_system_packages) = .invocationError →
      pip_install pythonExe package force_install ignore_install upgrade
        break_system_packages exec = 1) ∧
    (pip_install pythonExe package force_install ignore_install upgrade
        break_system_packages exec = 0 ∨
     pip_install pythonExe package force_install ignore_install upgrade
        break_system_packages exec = 1) := by
  unfold pip_install
  cases exec (pip_install_call_list pythonExe package force_install ignore_install
      upgrade break_system_packages) <;> simp

/-- Witness for C8: a subprocess behaviour that always succeeds gives
result 0. -/
theorem claim_C8_witness :
    pip_install "python" "numpy" false false false false (fun _ => .ok) = 0 :=
  (claim_C8_pip_install "python" "numpy" false false false false (fun _ => .ok)).1 rfl

/-- C9 counterexample: the claim says `check_valid_file` never propagates
an exception for any path, but when `os.stat` raises anything other than
`FileNotFoundError` (e.g. `PermissionError` on an unsearchable parent
directory, or `ValueError` for a path with an embedded NUL byte), the
exception escapes: the function does not return a boolean. -/
theorem claim_C9_counterexample :
    check_valid_file .otherError none = .error () := rfl

/-- C9 (amended): `check_valid_file` returns a boolean and propagates no
exception for every path whose `os.stat` either succeeds or raises
`FileNotFoundError` — including a directory, an unreadable file, and any
path whose open fails — but a stat exception of any other kind
propagates.  -/
theorem claim_C9_no_exception (stat : StatOutcome) (openRead4 : Option (List Nat))
    (h : stat ≠ .otherError) :
    ∃ b, check_valid_file stat openRead4 = .ok b := by
  cases stat with
  | ok n => exact ⟨_, rfl⟩
  | fileNotFound => exact ⟨_, rfl⟩
  | otherError => exact absurd rfl h

/-- Witness for C9 (amended): a directory-like input — stat succeeds,
open raises `IsADirectoryError`. -/
theorem claim_C9_witness :
    ∃ b, check_valid_file (.ok 4096) none = .ok b :=
  claim_C9_no_exception (.ok 4096) none (by decide)

/-- C6: `can_write_to_dir` returns false when the path does not exist,
when it is not a directory (a file), or when it lacks write permission;
it returns true only after successfully writing the probe file into the
directory and deleting it (both probe steps succeeded, and the trace is
exactly the probe write followed by its removal). -/
theorem claim_C6_can_write_to_dir (ex isdir acc probeWrite probeRemove : Bool)
    (dirname : String) :
    (ex = false →
      (can_write_to_dir_run ex isdir acc probeWrite probeRemove dirname).1 = false) ∧
    (isdir = false →
      (can_write_to_dir_run ex isdir acc probeWrite probeRemove dirname).1 = false) ∧
    (acc = false →
      (can_write_to_dir_run ex isdir acc probeWrite probeRemove dirname).1 = false) ∧
    ((can_write_to_dir_run ex isdir acc probeWrite probeRemove dirname).1 = true →
      probeWrite = true ∧ probeRemove = true ∧
      (can_write_to_dir_run ex isdir acc probeWrite probeRemove dirname).2 =
        [.fsWrite (dirname ++ "/temp_test_file.tmp") testBytes,
         .fsRemove (dirname ++ "/temp_test_file.tmp")]) := by
  cases ex <;> cases isdir <;> cases acc <;> cases probeWrite <;> cases probeRemove <;>
    simp [can_write_to_dir_run]

/-- Witness for C6 at concrete inputs: a missing path, a file, a
non-writable directory, and a fully successful probe. -/
theorem claim_C6_witness :
    (can_write_to_dir_run false true true true true "/d").1 = false ∧
    (can_write_to_dir_run true false true true true "/d").1 = false ∧
    (can_write_to_dir_run true true false true true "/d").1 = false ∧
    (true = true ∧ true = true ∧
      (can_write_to_dir_run true true true true true "/d").2 =
        [.fsWrite ("/d" ++ "/temp_test_file.tmp") testBytes,
         .fsRemove ("/d" ++ "/temp_test_file.tmp")]) :=
  ⟨(claim_C6_can_write_to_dir false true true true true "/d").1 rfl,
   (claim_C6_can_write_to_dir true false true true true "/d").2.1 rfl,
   (claim_C6_can_write_to_dir true true false true true "/d").2.2.1 rfl,
   (claim_C6_can_write_to_dir true true true true true "/d").2.2.2 rfl⟩

/-- C7: when the first candidate file `<path>/sl/Camera.hpp` lacks the
version pattern (the search raises `AttributeError`),
`check_zed_sdk_version` retries against `<path>/sl_zed/defines.hpp`, and
its result is exactly that of the second attempt; when neither file
contains the pattern, the `AttributeError` propagates to the caller. -/
theorem claim_C7_version_fallback (fs : String → Option String) (file_path : String) :
    (check_zed_sdk_version_private (fs (file_path ++ "/sl/Camera.hpp"))
        = .error .attributeError →
      check_zed_sdk_version fs file_path
        = check_zed_sdk_version_private (fs (file_path ++ "/sl_zed/defines.hpp"))) ∧
    (check_zed_sdk_version_private (fs (file_path ++ "/sl/Camera.hpp"))
        = .error .attributeError →
     check_zed_sdk_version_private (fs (file_path ++ "/sl_zed/defines.hpp"))
        = .error .attributeError →
      check_zed_sdk_version fs file_path = .error .attributeError) := by
  constructor
  · intro h1
    simp [check_zed_sdk_version, h1]
  · intro h1 h2
    simp [check_zed_sdk_version, h1, h2]

/-- Witness for C7: a filesystem on which both candidate files exist but
are empty, so both pattern searches fail and the error propagates. -/
theorem claim_C7_witness :
    check_zed_sdk_version (fun _ => some "") "/usr/local/zed/include"
      = .error .attributeError :=
  (claim_C7_version_fallback (fun _ => some "") "/usr/local/zed/include").2 rfl rfl

/-- Helper for C10: the line scan returns no directory when no
`Location:` line names an existing directory. -/
theorem pyzedLoc_fst_none (isDir : String → Bool) (lines : List String)
    (h : ∀ line ∈ lines, line.startsWith "Location:" = true →
      isDir ((line.drop "Location:".length).trim) = false) :
    (pyzedLoc isDir lines).1 = none := by
  induction lines with
  | nil => rfl
  | cons line rest ih =>
    have hrest : ∀ l ∈ rest, l.startsWith "Location:" = true →
        isDir ((l.drop "Location:".length).trim) = false :=
      fun l hl => h l (List.mem_cons_of_mem _ hl)
    by_cases hs : line.startsWith "Location:" = true
    · have hd := h line (List.mem_cons_self _ _) hs
      simp [pyzedLoc, hs, hd, ih hrest]
    · simp [pyzedLoc, hs, ih hrest]

/-- C10: `get_pyzed_directory` distinguishes its two "not found" results —
Python `None` when the `pip show pyzed` subprocess succeeds but no
`Location:` line of its output names an existing directory, and the empty
string when the subprocess invocation raises. -/
theorem claim_C10_get_pyzed_directory (pythonExe : String) (isDir : String → Bool)
    (lines : List String) :
    ((∀ line ∈ lines, line.startsWith "Location:" = true →
        isDir ((line.drop "Location:".length).trim) = false) →
      (get_pyzed_directory pythonExe (some lines) isDir).1 = none) ∧
    (get_pyzed_directory pythonExe none isDir).1 = some "" := by
  constructor
  · intro h
    simp [get_pyzed_directory, pyzedLoc_fst_none isDir lines h]
  · rfl

/-- Witness for C10: output with a `Location:` line naming a missing
directory gives `None`; a raising subprocess gives the empty string. -/
theorem claim_C10_witness :
    (get_pyzed_directory "python" (some ["Name: pyzed", "Location: /missing"])
        (fun _ => false)).1 = none ∧
    (get_pyzed_directory "python" none (fun _ => false)).1 = some "" :=
  ⟨(claim_C10_get_pyzed_directory "python" (fun _ => false)
      ["Name: pyzed", "Location: /missing"]).1 (fun _ _ _ => rfl),
   (claim_C10_get_pyzed_directory "python" (fun _ => false) []).2⟩

/-- C2: when the first GET fails with the transport-level SSL error, the
script reinstalls `certifi` via `pip_install` with `force_install=True`
and `upgrade=True`, and retries the GET-and-write exactly once iff that
install returned 0; in every run the number of GET attempts is at most 2,
so no second retry ever occurs. -/
theorem claim_C2_ssl_retry (pythonExe whlPath url : String) (bsp : Bool)
    (g1 g2 : GetResult) (w1 w2 : WriteResult) (exec : List String → SubprocResult) :
    (downloadBlock pythonExe whlPath url bsp g1 g2 w1 w2 exec).gets ≤ 2 ∧
    (g1 = .excURLError →
      (downloadBlock pythonExe whlPath url bsp g1 g2 w1 w2 exec).certifiCall
          = some ("certifi", true, false, true, bsp) ∧
      (pip_install pythonExe "certifi" true false true bsp exec = 0 →
        (downloadBlock pythonExe whlPath url bsp g1 g2 w1 w2 exec).gets = 2) ∧
      (pip_install pythonExe "certifi" true false true bsp exec ≠ 0 →
        (downloadBlock pythonExe whlPath url bsp g1 g2 w1 w2 exec).gets = 1)) := by
  cases g1 with
  | resp r => cases w1 <;> simp [downloadBlock]
  | excPermissionError => simp [downloadBlock]
  | excHTTPError => simp [downloadBlock]
  | excOther => simp [downloadBlock]
  | excURLError =>
    by_cases hp : pip_install pythonExe "certifi" true false true bsp exec = 0 <;>
      simp [downloadBlock, hp]

/-- Witness for C2: an SSL failure followed by a successful `certifi`
install yields exactly two GET attempts. -/
theorem claim_C2_witness :
    (downloadBlock "python" "/home/u/pyzed.whl" "https://u" false .excURLError
        (.resp ⟨200, [80]⟩) .ok .ok (fun _ => .ok)).gets = 2 :=
  ((claim_C2_ssl_retry "python" "/home/u/pyzed.whl" "https://u" false .excURLError
      (.resp ⟨200, [80]⟩) .ok .ok (fun _ => .ok)).2 rfl).2.1 rfl

/-- C3: whenever the GET returns a response — of any status code — the
script immediately attempts to write the response body to the destination
file, and the whole download block is independent of the status code: no
status check happens before (or after) the write. -/
theorem claim_C3_unconditional_write (pythonExe whlPath url : String) (bsp : Bool)
    (status : Nat) (content : List Nat) (g2 : GetResult) (w1 w2 : WriteResult)
    (exec : List String → SubprocResult) :
    (∃ rest,
      (downloadBlock pythonExe whlPath url bsp (.resp ⟨status, content⟩) g2 w1 w2 exec).events
        = .netGet url :: .fsWrite whlPath content :: rest) ∧
    (∀ status' : Nat,
      downloadBlock pythonExe whlPath url bsp (.resp ⟨status, content⟩) g2 w1 w2 exec
        = downloadBlock pythonExe whlPath url bsp (.resp ⟨status', content⟩) g2 w1 w2 exec) := by
  cases w1 <;> simp [downloadBlock]

/-- C4: the wheel filename and download URL are deterministic pure
functions of the OS family, the CPU architecture string, the SDK
major/minor and the interpreter major/minor: two constructions from equal
inputs yield identical strings. -/
theorem claim_C4_artifact_deterministic (os os' : OSFamily) (machine machine' : String)
    (sdk sdk' py py' : String × String)
    (h1 : os = os') (h2 : machine = machine') (h3 : sdk = sdk') (h4 : py = py') :
    artifact os machine sdk py = artifact os' machine' sdk' py' := by
  subst h1; subst h2; subst h3; subst h4; rfl

/-- Witness for C4 on a concrete supported configuration. -/
theorem claim_C4_witness :
    artifact .linux "x86_64" ("5", "1") ("3", "10")
      = artifact .linux "x86_64" ("5", "1") ("3", "10") :=
  claim_C4_artifact_deterministic .linux .linux "x86_64" "x86_64"
    ("5", "1") ("5", "1") ("3", "10") ("3", "10") rfl rfl rfl rfl

/-- C5: when the interpreter architecture is anything other than the
literal `64bit`, the script prints the architecture error and exits with
status 1 immediately — its whole trace is that print and the exit, so no
network request, no file write and no file copy ever happens. -/
theorem claim_C5_arch_gate (env : ScriptEnv) (h : env.archBits ≠ "64bit") :
    scriptRun env
      = [.output ("ERROR : Python 64bit must be used, found " ++ env.archBits),
         .exitCode 1] ∧
    Event.exitCode 1 ∈ scriptRun env ∧
    (∀ e ∈ scriptRun env,
      (∀ u, e ≠ .netGet u) ∧ (∀ p c, e ≠ .fsWrite p c) ∧ (∀ s d, e ≠ .fsCopy s d)) := by
  have hrun : scriptRun env
      = [.output ("ERROR : Python 64bit must be used, found " ++ env.archBits),
         .exitCode 1] := by
    unfold scriptRun
    rw [if_pos h]
  refine ⟨hrun, ?_, ?_⟩ <;> simp [hrun]

/-- An environment whose interpreter reports a 32-bit architecture. -/
def badArchEnv : ScriptEnv where
  archBits := "32bit"
  machine := "i686"
  sysPlatform := "linux"
  pythonExe := "python"
  argsPath := none
  argsForce := false
  cwd := "/work"
  home := "/home/user"
  zedRootDir := none
  pyMajor := "3"
  pyMinor := "10"
  pathExists := fun _ => true
  pathIsDir := fun _ => true
  accessW := fun _ => true
  probeWrite := fun _ => true
  probeRemove := fun _ => true
  readText := fun _ => none
  g1 := .excOther
  g2 := .excOther
  w1 := .ok
  w2 := .ok
  exec := fun _ => .ok
  statOf := fun _ => .fileNotFound
  read4Of := fun _ => none
  depGet := fun _ => .excOther
  depWrite := fun _ => .ok
  pipShow := none
  isFile := fun _ => false
  copyOk := fun _ => true

/-- Witness for C5: on the concrete 32-bit environment the whole run is
the error print and `sys.exit(1)`. -/
theorem claim_C5_witness :
    scriptRun badArchEnv
      = [.output ("ERROR : Python 64bit must be used, found " ++ badArchEnv.archBits),
         .exitCode 1] :=
  (claim_C5_arch_gate badArchEnv (by decide)).1

end GetPythonApi
